import Mathlib

/-!
Shallow embedding of `wizzair_monitor.py`, a price-monitoring script for
Wizzair routes.  Amounts are modelled as rationals (the script works with
decimal prices), fallible operations return `Option`, and the environment
(HTTP responses, file states) is passed in explicitly.  Definitions follow
the Python source line by line; theorems settle the frozen claims about the
specification.
-/

set_option allowUnsafeReducibility true in
attribute [semireducible] Rat.mul

set_option allowUnsafeReducibility true in
attribute [semireducible] Rat.add

set_option allowUnsafeReducibility true in
attribute [semireducible] Rat.sub

set_option allowUnsafeReducibility true in
attribute [semireducible] Rat.inv

/-- Two-decimal digit block: renders `n < 100` with a leading zero when
`n < 10` (the fractional part of a `:.2f` format). -/
def twoDigitBlock (n : ℕ) : String :=
  (if n < 10 then "0" else "") ++ toString n

/-- Floor of a rational, computed on its normalised representation. -/
def ratFloor (q : ℚ) : ℤ := Int.fdiv q.num (q.den : ℤ)

/-- Round a rational to the nearest integer, ties to even — the rounding of
Python's `round` and `:.2f` float formatting (idealised over exact
rationals). -/
def roundHalfEven (q : ℚ) : ℤ :=
  if q - (ratFloor q : ℚ) < 1/2 then ratFloor q
  else if (1/2 : ℚ) < q - (ratFloor q : ℚ) then ratFloor q + 1
  else if ratFloor q % 2 = 0 then ratFloor q else ratFloor q + 1

/-- Python `round(x, 2)`: round to two decimal places, ties to even. -/
def round2 (q : ℚ) : ℚ := ((roundHalfEven (q * 100) : ℤ) : ℚ) / 100

/-- Python `f"{x:.2f}"`: the amount rendered with exactly two decimals. -/
def formatTwoDec (q : ℚ) : String :=
  let n := roundHalfEven (q * 100)
  (if n < 0 then "-" else "")
    ++ toString (n.natAbs / 100) ++ "." ++ twoDigitBlock (n.natAbs % 100)

/-- `format_price` (wizzair_monitor.py lines 99-107): RON additionally shows
an approximate EUR value at the hardcoded rate 1 EUR = 4.9 RON; everything
else shows the two-decimal amount with its currency code. -/
def format_price (price : ℚ) (currency : String) : String :=
  if currency = "RON" then
    let price_eur := round2 (price / (49/10))
    formatTwoDec price ++ " RON (≈ " ++ formatTwoDec price_eur ++ " EUR)"
  else if currency = "EUR" then
    formatTwoDec price ++ " EUR"
  else
    formatTwoDec price ++ " " ++ currency

/-- One calendar entry of the fare-chart response (the fields
`check_route_price` reads: `date`, `priceType`, `price.amount`,
`price.currencyCode`; a missing `price` object is both fields `none`). -/
structure Flight where
  date : String
  priceType : String
  amount : Option ℚ
  currencyCode : Option String
deriving DecidableEq

/-- The outcome of the HTTP POST in `check_route_price`: a network-level
failure (caught by the generic `except` on line 166), a non-2xx status
(`raise_for_status`, caught on line 163), or a parsed JSON body with its
`outboundFlights` list. -/
inductive FetchResp
  | transport
  | httpError (status : Nat)
  | ok (outboundFlights : List Flight)
deriving DecidableEq

/-- The scan over `outboundFlights` (lines 149-162): the first entry whose
date equals the target is examined; with `priceType` other than `"price"`
the function returns `None` at once; with a falsy amount (absent or `0`) or
falsy currency (absent or `""`) the loop continues; exhausting the list
returns `None`. -/
def scanFlights (target : String) : List Flight → Option (ℚ × String)
  | [] => none
  | f :: rest =>
    if f.date = target then
      if f.priceType = "price" then
        match f.amount, f.currencyCode with
        | some p, some c =>
          if p ≠ 0 ∧ c ≠ "" then some (p, c) else scanFlights target rest
        | _, _ => scanFlights target rest
      else none
    else scanFlights target rest

/-- `check_route_price` (lines 109-168): every failure mode — transport
error, non-2xx status, date not found, date unavailable — returns `None`;
a sellable entry with truthy amount and currency returns the pair. -/
def check_route_price (resp : FetchResp) (depart_date : String) : Option (ℚ × String) :=
  match resp with
  | .transport => none
  | .httpError _ => none
  | .ok flights => scanFlights (depart_date ++ "T00:00:00") flights

/-- The greedy digit run at the head of a character list. -/
def takeDigits : List Char → List Char × List Char
  | [] => ([], [])
  | c :: cs =>
    if c.isDigit then
      let (d, r) := takeDigits cs
      (c :: d, r)
    else ([], c :: cs)

/-- Greedy match of the regex group `\d+\.\d+\.\d+` at the head of the
list. -/
def parseVersionDigits (cs : List Char) : Option String :=
  let (d1, r1) := takeDigits cs
  if d1 = [] then none
  else
    match r1 with
    | '.' :: r2 =>
      let (d2, r3) := takeDigits r2
      if d2 = [] then none
      else
        match r3 with
        | '.' :: r4 =>
          let (d3, _) := takeDigits r4
          if d3 = [] then none
          else some (d1 ++ '.' :: d2 ++ '.' :: d3).asString
        | _ => none
    | _ => none

/-- The literal host part of the version regex on line 77. -/
def hostPat : List Char := "https://be.wizzair.com/".toList

/-- Drops the pattern `pat` from the head of `cs` when it matches there. -/
def dropPat : List Char → List Char → Option (List Char)
  | [], cs => some cs
  | _ :: _, [] => none
  | p :: ps, c :: cs => if c = p then dropPat ps cs else none

/-- `re.search` for `https://be\.wizzair\.com/(\d+\.\d+\.\d+)` over the body
(line 77): the first position where host and version match, returning the
captured version group. -/
def findVersion : List Char → Option String
  | [] => none
  | c :: cs =>
    match dropPat hostPat (c :: cs) with
    | some rest =>
      match parseVersionDigits rest with
      | some v => some v
      | none => findVersion cs
    | none => findVersion cs

/-- The outcome of the GET on the build-number URL in
`get_current_api_version`: a network error or non-2xx status (both end in
the `except` branch via `raise_for_status`), or a 2xx body. -/
inductive VersionResp
  | failure
  | success (body : String)
deriving DecidableEq

/-- `get_current_api_version` (lines 67-88) as a function from the previous
`API_VERSION` and the response to the new `API_VERSION`: any failure —
network error, non-2xx, or pattern not found — leaves the version
unchanged; a successful extraction replaces it (a log line distinguishes
the equal case, the stored value is the same). -/
def get_current_api_version (current : String) (resp : VersionResp) : String :=
  match resp with
  | .failure => current
  | .success body =>
    match findVersion body.toList with
    | some v => v
    | none => current

/-- A stored price observation: the `{"price": ..., "currency": ...}`
object kept per route id in `prev_prices.json`. -/
structure Obs where
  price : ℚ
  currency : String
deriving DecidableEq

/-- The price store: the JSON dictionary from route id to observation. -/
def Store : Type := String → Option Obs

/-- The empty dictionary `{}`. -/
def emptyStore : Store := fun _ => none

/-- Python `d[k] = v` on the dictionary. -/
def Store.set (s : Store) (k : String) (v : Obs) : Store :=
  fun k2 => if k2 = k then some v else s k2

/-- The state of `prev_prices.json` on disk when a pass starts. -/
inductive FileState
  | absent
  | corrupt
  | ok (s : Store)

/-- `load_prev_prices` (lines 170-178): a missing file and an unparsable
file both yield the empty dictionary; nothing is reported for the corrupt
case. -/
def load_prev_prices : FileState → Store
  | .absent => emptyStore
  | .corrupt => emptyStore
  | .ok s => s

/-- The write attempt inside `save_prev_prices`. -/
inductive WriteAttempt
  | ok
  | ioError (msg : String)
deriving DecidableEq

/-- `save_prev_prices` (lines 180-186): the `try`/`except` catches every
write error and only logs it, so the function returns normally in both
cases — no exception propagates to `main_loop`. -/
def save_prev_prices (w : WriteAttempt) : Except String Unit :=
  match w with
  | .ok => .ok ()
  | .ioError _ => .ok ()

/-- A route entry of `routes.json` (lines 212-222): `adults` defaults to 1
via `route.get("adults", 1)`. -/
structure Route where
  origin : String
  destination : String
  depart_date : String
  adults : Nat
deriving DecidableEq

/-- `get_route_id` (lines 188-190). -/
def get_route_id (route : Route) : String :=
  route.origin ++ "-" ++ route.destination ++ "-" ++ route.depart_date

/-- `get_city_name_with_code` (lines 60-65) over the airport table loaded at
startup; a missing entry degrades to the raw code. -/
def get_city_name_with_code (airports : List (String × String)) (airport_code : String) : String :=
  let city_name := ((airports.lookup airport_code).getD airport_code)
  if city_name = airport_code then city_name
  else city_name ++ " (" ++ airport_code ++ ")"

/-- The directional indicator of a change message. -/
inductive Direction
  | up
  | down
deriving DecidableEq

/-- One Telegram message of the pass: a fetch-failure warning (lines
226-229) or a change message (lines 240-245), the latter carrying the
arrow, the two city names, the date and the two formatted prices. -/
inductive Message
  | fetchFailure (origin_city destination_city depart_date : String)
  | priceChange (arrow : Direction) (origin_city destination_city depart_date : String)
      (newText oldText : String)
deriving DecidableEq

/-- The arrow choice on line 239: `"⬆️" if old_price and price > old_price
else "⬇️"` — Python truthiness makes both a missing and a zero old price
fall to the down arrow. -/
def arrowFor (old_price : Option ℚ) (price : ℚ) : Direction :=
  match old_price with
  | none => .down
  | some v => if v = 0 then .down else if price > v then .up else .down

/-- The change message built on lines 236-245: `old_price` is the stored
amount when a prior (dictionary) entry exists; the old-price text falls to
the placeholder for a falsy (absent or zero) old amount. -/
def change_message (airports : List (String × String)) (route : Route)
    (price : ℚ) (currency : String) (old : Option Obs) : Message :=
  let old_price : Option ℚ := old.map Obs.price
  .priceChange (arrowFor old_price price)
    (get_city_name_with_code airports route.origin)
    (get_city_name_with_code airports route.destination)
    route.depart_date
    (format_price price currency)
    (match old with
     | none => "–"
     | some o => if o.price = 0 then "–" else format_price o.price o.currency)

/-- The body of the per-route loop (lines 212-249): a failed fetch sends a
warning and leaves the working copy untouched; a successful fetch stages
the new observation into the working copy `cur`, compares against the
start-of-pass store `prev`, and sends a change message unless the amount
moved by at most 0.01. -/
def processRoute (airports : List (String × String)) (prev cur : Store)
    (route : Route) (resp : FetchResp) : Store × Option Message :=
  match check_route_price resp route.depart_date with
  | none =>
    (cur, some (.fetchFailure (get_city_name_with_code airports route.origin)
      (get_city_name_with_code airports route.destination) route.depart_date))
  | some (price, currency) =>
    match prev (get_route_id route) with
    | none =>
      (cur.set (get_route_id route) ⟨price, currency⟩,
        some (change_message airports route price currency none))
    | some o =>
      if |price - o.price| > 1/100 then
        (cur.set (get_route_id route) ⟨price, currency⟩,
          some (change_message airports route price currency (some o)))
      else (cur.set (get_route_id route) ⟨price, currency⟩, none)

/-- The route loop folded over the pass's checks, each route paired with
the response its single fetch received; messages are collected in send
order. -/
def runRoutes (airports : List (String × String)) (prev : Store) :
    Store → List (Route × FetchResp) → Store × List Message
  | cur, [] => (cur, [])
  | cur, (route, resp) :: rest =>
    let step := processRoute airports prev cur route resp
    let next := runRoutes airports prev step.1 rest
    (next.1, step.2.toList ++ next.2)

/-- `routes.json` at the start of a pass: missing (line 200), or present
with the pass's route list, each route paired with the fare-chart response
its fetch received. -/
inductive RoutesFile
  | missing
  | present (checks : List (Route × FetchResp))

/-- What one iteration of `main_loop` (lines 195-259) did: the
`API_VERSION` in effect for the pass's fetch URLs, whether
`prev_prices.json` was read, the messages sent, the dictionary committed by
the single `save_prev_prices` call (none when the pass was aborted before
it), and the seconds of the final sleep. -/
structure PassResult where
  versionUsed : String
  storeRead : Bool
  routesChecked : Nat
  messages : List Message
  savedStore : Option Store
  sleptSeconds : Nat

/-- `CHECK_INTERVAL_MINUTES` (line 14). -/
def CHECK_INTERVAL_MINUTES : Nat := 60

/-- One iteration of `main_loop` (lines 195-259): refresh the version
(always), abort the pass when `routes.json` is missing (sleep the full
interval, read and write nothing), otherwise load the store, fold the
route loop over a working copy of it, and commit the working copy once at
the end. -/
def main_pass (airports : List (String × String)) (api_version : String)
    (vresp : VersionResp) (routesFile : RoutesFile) (prevFile : FileState) : PassResult :=
  let v := get_current_api_version api_version vresp
  match routesFile with
  | .missing =>
    { versionUsed := v, storeRead := false, routesChecked := 0, messages := [],
      savedStore := none, sleptSeconds := CHECK_INTERVAL_MINUTES * 60 }
  | .present checks =>
    let prev_prices := load_prev_prices prevFile
    let run := runRoutes airports prev_prices prev_prices checks
    { versionUsed := v, storeRead := true, routesChecked := checks.length,
      messages := run.2, savedStore := some run.1,
      sleptSeconds := CHECK_INTERVAL_MINUTES * 60 }

/-- The environment one iteration of the loop runs against. -/
structure PassEnv where
  vresp : VersionResp
  routesFile : RoutesFile

/-- `main_loop` (lines 192-259) over a finite schedule of pass
environments: `API_VERSION` carries over between passes, and the state file
holds the committed dictionary of the last pass that saved one. -/
def main_loop (airports : List (String × String)) (api_version : String)
    (file : FileState) : List PassEnv → List PassResult
  | [] => []
  | e :: rest =>
    let res := main_pass airports api_version e.vresp e.routesFile file
    let file2 := match res.savedStore with
      | some s => FileState.ok s
      | none => file
    res :: main_loop airports res.versionUsed file2 rest

theorem store_set_lookup (s : Store) (k k2 : String) (v : Obs) :
    Store.set s k v k2 = if k2 = k then some v else s k2 := rfl

theorem scanFlights_no_match (target : String) (flights : List Flight)
    (h : ∀ f ∈ flights, f.date ≠ target) : scanFlights target flights = none := by
  induction flights with
  | nil => rfl
  | cons f rest ih =>
    unfold scanFlights
    rw [if_neg (h f (List.mem_cons_self f rest))]
    exact ih fun g hg => h g (List.mem_cons_of_mem f hg)

theorem processRoute_fail_eq (airports : List (String × String)) (prev cur : Store)
    (route : Route) (resp : FetchResp)
    (h : check_route_price resp route.depart_date = none) :
    processRoute airports prev cur route resp =
      (cur, some (.fetchFailure (get_city_name_with_code airports route.origin)
        (get_city_name_with_code airports route.destination) route.depart_date)) := by
  unfold processRoute
  rw [h]

theorem processRoute_succ_store (airports : List (String × String)) (prev cur : Store)
    (route : Route) (resp : FetchResp) (p : ℚ) (c : String)
    (h : check_route_price resp route.depart_date = some (p, c)) :
    (processRoute airports prev cur route resp).1 =
      Store.set cur (get_route_id route) ⟨p, c⟩ := by
  unfold processRoute
  rw [h]
  cases prev (get_route_id route) with
  | none => rfl
  | some o =>
    simp only []
    by_cases hd : |p - o.price| > 1/100
    · rw [if_pos hd]
    · rw [if_neg hd]

theorem processRoute_store_other (airports : List (String × String)) (prev cur : Store)
    (route : Route) (resp : FetchResp) (rid : String)
    (h : get_route_id route ≠ rid) :
    (processRoute airports prev cur route resp).1 rid = cur rid := by
  cases hc : check_route_price resp route.depart_date with
  | none => rw [processRoute_fail_eq airports prev cur route resp hc]
  | some pc =>
    obtain ⟨p, c⟩ := pc
    rw [processRoute_succ_store airports prev cur route resp p c hc,
      store_set_lookup, if_neg fun he => h he.symm]

theorem runRoutes_lookup_no_succ (airports : List (String × String)) (prev : Store)
    (checks : List (Route × FetchResp)) (cur : Store) (rid : String)
    (h : ∀ route resp p c, (route, resp) ∈ checks →
      check_route_price resp route.depart_date = some (p, c) → get_route_id route ≠ rid) :
    (runRoutes airports prev cur checks).1 rid = cur rid := by
  induction checks generalizing cur with
  | nil => rfl
  | cons x rest ih =>
    obtain ⟨route, resp⟩ := x
    show (runRoutes airports prev (processRoute airports prev cur route resp).1 rest).1 rid
      = cur rid
    rw [ih (processRoute airports prev cur route resp).1
      fun r' resp' p c hm hs => h r' resp' p c (List.mem_cons_of_mem _ hm) hs]
    cases hc : check_route_price resp route.depart_date with
    | none => rw [processRoute_fail_eq airports prev cur route resp hc]
    | some pc =>
      obtain ⟨p, c⟩ := pc
      exact processRoute_store_other airports prev cur route resp rid
        (h route resp p c (List.mem_cons_self _ _) hc)

theorem runRoutes_lookup_succ (airports : List (String × String)) (prev : Store)
    (checks : List (Route × FetchResp)) (cur : Store)
    (route : Route) (resp : FetchResp) (p : ℚ) (c : String)
    (hnd : (checks.map fun x => get_route_id x.1).Nodup)
    (hmem : (route, resp) ∈ checks)
    (hs : check_route_price resp route.depart_date = some (p, c)) :
    (runRoutes airports prev cur checks).1 (get_route_id route) = some ⟨p, c⟩ := by
  induction checks generalizing cur with
  | nil => cases hmem
  | cons x rest ih =>
    obtain ⟨r0, resp0⟩ := x
    have hnd0 : get_route_id r0 ∉ rest.map fun x => get_route_id x.1 :=
      (List.nodup_cons.mp hnd).1
    show (runRoutes airports prev (processRoute airports prev cur r0 resp0).1 rest).1
      (get_route_id route) = some ⟨p, c⟩
    rcases List.mem_cons.mp hmem with he | hm
    · obtain ⟨he1, he2⟩ := Prod.mk.injEq .. ▸ he
      subst he1
      subst he2
      rw [runRoutes_lookup_no_succ airports prev rest _ (get_route_id route)
        fun r' resp' p' c' hm' _ => fun hid =>
          hnd0 (hid ▸ List.mem_map_of_mem (fun x => get_route_id x.1) hm'),
        processRoute_succ_store airports prev cur route resp p c hs,
        store_set_lookup, if_pos rfl]
    · exact ih _ (List.nodup_cons.mp hnd).2 hm

theorem runRoutes_noprior_msg (airports : List (String × String))
    (checks : List (Route × FetchResp)) (cur : Store)
    (route : Route) (resp : FetchResp) (p : ℚ) (c : String)
    (hmem : (route, resp) ∈ checks)
    (hs : check_route_price resp route.depart_date = some (p, c)) :
    change_message airports route p c none ∈ (runRoutes airports emptyStore cur checks).2 := by
  induction checks generalizing cur with
  | nil => cases hmem
  | cons x rest ih =>
    obtain ⟨r0, resp0⟩ := x
    show change_message airports route p c none ∈
      ((processRoute airports emptyStore cur r0 resp0).2.toList
        ++ (runRoutes airports emptyStore (processRoute airports emptyStore cur r0 resp0).1 rest).2)
    rcases List.mem_cons.mp hmem with he | hm
    · obtain ⟨he1, he2⟩ := Prod.mk.injEq .. ▸ he
      subst he1
      subst he2
      apply List.mem_append_left
      unfold processRoute
      rw [hs]
      show change_message airports route p c none ∈
        (Option.some (change_message airports route p c none)).toList
      exact List.mem_singleton.mpr rfl
    · exact List.mem_append_right _ (ih _ hm)

theorem ratFloor_intCast (n : ℤ) : ratFloor (n : ℚ) = n := by
  unfold ratFloor
  rw [Rat.num_intCast, Rat.den_intCast]
  exact Int.fdiv_one n

theorem roundHalfEven_intCast (n : ℤ) : roundHalfEven (n : ℚ) = n := by
  unfold roundHalfEven
  rw [ratFloor_intCast, sub_self, if_pos (by norm_num : (0:ℚ) < 1/2)]

theorem round2_mul_100 (q : ℚ) :
    round2 q * 100 = ((roundHalfEven (q * 100) : ℤ) : ℚ) := by
  unfold round2
  rw [div_mul_cancel₀]
  norm_num

theorem formatTwoDec_round2 (q : ℚ) : formatTwoDec (round2 q) = formatTwoDec q := by
  unfold formatTwoDec
  rw [round2_mul_100, roundHalfEven_intCast]

theorem string_append_assoc (a b c : String) : a ++ b ++ c = a ++ (b ++ c) := by
  obtain ⟨la⟩ := a
  obtain ⟨lb⟩ := b
  obtain ⟨lc⟩ := c
  show String.mk (la ++ lb ++ lc) = String.mk (la ++ (lb ++ lc))
  rw [List.append_assoc]

/-- C8 (amended): 80 RON formats with the fixed-rate EUR annotation as the
claim's example shows; a non-RON currency formats as the two-decimal amount
and the code; the DISPLAYED amount is stable under two-decimal rounding;
and re-formatting the numeric content of the output reproduces the output
for every non-RON currency, and for RON whenever the amount already is at
two-decimal precision — the claim's unrestricted idempotence fails for RON,
because the EUR annotation is recomputed from the rounded amount (see the
counterexample). -/
theorem claim_C8_price_formatting (p : ℚ) (c : String) :
    format_price 80 "RON" = "80.00 RON (≈ 16.33 EUR)" ∧
    (c ≠ "RON" → format_price p c = formatTwoDec p ++ " " ++ c) ∧
    formatTwoDec (round2 p) = formatTwoDec p ∧
    (c ≠ "RON" → format_price (round2 p) c = format_price p c) ∧
    (round2 p = p → format_price (round2 p) c = format_price p c) := by
  have hplain : ∀ q : ℚ, ∀ s : String, s ≠ "RON" →
      format_price q s = formatTwoDec q ++ " " ++ s := by
    intro q s hs
    unfold format_price
    rw [if_neg hs]
    by_cases he : s = "EUR"
    · rw [if_pos he, he, string_append_assoc]
      exact congrArg (fun t => formatTwoDec q ++ t) (by decide)
    · rw [if_neg he]
  refine ⟨by decide, hplain p c, formatTwoDec_round2 p, ?_, fun h => by rw [h]⟩
  intro hc
  rw [hplain (round2 p) c hc, hplain p c hc, formatTwoDec_round2]

/-- C8 counterexample: the amount 0.2651 RON displays as "0.27", so the
numeric content of its output is 0.27; but formatting 0.27 RON yields a
different string — the EUR annotation moves from 0.05 to 0.06 — refuting
idempotence as claimed for every RON amount. -/
theorem claim_C8_counterexample :
    formatTwoDec (2651/10000 : ℚ) = "0.27" ∧
    round2 (2651/10000 : ℚ) = 27/100 ∧
    format_price (round2 (2651/10000 : ℚ)) "RON" ≠ format_price (2651/10000 : ℚ) "RON" ∧
    format_price (27/100 : ℚ) "RON" = "0.27 RON (≈ 0.06 EUR)" ∧
    format_price (2651/10000 : ℚ) "RON" = "0.27 RON (≈ 0.05 EUR)" := by
  refine ⟨by decide, by decide, by decide, by decide, by decide⟩

/-- C8 witness: 12.30 USD — a non-RON currency shown as amount and code,
and stable under re-formatting. -/
theorem claim_C8_witness :
    ("USD" : String) ≠ "RON" ∧
    format_price (123/10) "USD" = formatTwoDec (123/10) ++ " " ++ "USD" ∧
    format_price (round2 (123/10)) "USD" = format_price (123/10) "USD" :=
  ⟨by decide, (claim_C8_price_formatting (123/10) "USD").2.1 (by decide),
    (claim_C8_price_formatting (123/10) "USD").2.2.2.1 (by decide)⟩

/-- C3: the claim says a failure to write the price-store file propagates
out of the pass and terminates the process; in the code `save_prev_prices`
wraps the write in `try`/`except Exception` and only logs, so a write error
is absorbed — the function returns normally, indistinguishable from a
successful save. This theorem evaluates the embedded function at a failing
write. -/
theorem claim_C3_save_error_absorbed :
    save_prev_prices (.ioError "disk full") = Except.ok () ∧
    save_prev_prices (.ioError "disk full") = save_prev_prices .ok :=
  ⟨rfl, rfl⟩

/-- C4 (amended): a calendar entry matching the requested date with
`priceType = "price"` yields success only when the amount is truthy
(present and nonzero) and the currency truthy (present and nonempty);
under those conditions — stated here with no earlier entry for the date —
the fetch returns the pair. The claim's "including amount 0" fails, see
the counterexample. -/
theorem claim_C4_sellable_success (pre post : List Flight) (f : Flight) (d : String)
    (p : ℚ) (c : String)
    (hpre : ∀ g ∈ pre, g.date ≠ d ++ "T00:00:00")
    (hd : f.date = d ++ "T00:00:00") (ht : f.priceType = "price")
    (hp : f.amount = some p) (hc : f.currencyCode = some c)
    (hp0 : p ≠ 0) (hc0 : c ≠ "") :
    check_route_price (.ok (pre ++ f :: post)) d = some (p, c) := by
  unfold check_route_price
  induction pre with
  | nil =>
    rw [List.nil_append]
    unfold scanFlights
    rw [if_pos hd, if_pos ht, hp, hc]
    simp only []
    rw [if_pos ⟨hp0, hc0⟩]
  | cons g gs ih =>
    rw [List.cons_append]
    unfold scanFlights
    rw [if_neg (hpre g (List.mem_cons_self g gs))]
    exact ih fun x hx => hpre x (List.mem_cons_of_mem g hx)

/-- C4 counterexample: a calendar entry that exactly matches the requested
date, is flagged sellable (`priceType = "price"`) and carries the numeric
amount 0 with currency "EUR" is NOT returned as success — `if price and
currency` treats the amount 0 as falsy and the fetch returns `None`,
refuting the claim's "including when the numeric amount is 0". -/
theorem claim_C4_counterexample :
    check_route_price
      (.ok [⟨"2025-06-01T00:00:00", "price", some 0, some "EUR"⟩]) "2025-06-01" = none ∧
    check_route_price
      (.ok [⟨"2025-06-01T00:00:00", "price", some 0, some "EUR"⟩]) "2025-06-01" ≠
      some (0, "EUR") := by
  refine ⟨rfl, ?_⟩
  decide

/-- C4 witness: a matching, sellable entry with nonzero amount 49.9 EUR is
returned as success. -/
theorem claim_C4_witness :
    check_route_price
      (.ok [⟨"2025-06-01T00:00:00", "price", some (499/10), some "EUR"⟩]) "2025-06-01" =
      some (499/10, "EUR") :=
  claim_C4_sellable_success [] [] ⟨"2025-06-01T00:00:00", "price", some (499/10), some "EUR"⟩
    "2025-06-01" (499/10) "EUR" (fun g hg => absurd hg (List.not_mem_nil g))
    rfl rfl rfl rfl (by decide) (by decide)

/-- C5 (amended): the fetch does NOT return a structured error — every
failure kind (transport error, non-2xx status, requested date absent from
the calendar, matching date not sellable) returns the same bare `None`;
the kinds are distinguished only in log output, so the caller cannot tell
them apart from the returned value. -/
theorem claim_C5_all_failures_none (d : String) (s : Nat) (flights : List Flight)
    (hmiss : ∀ f ∈ flights, f.date ≠ d ++ "T00:00:00") :
    check_route_price .transport d = none ∧
    check_route_price (.httpError s) d = none ∧
    check_route_price (.ok flights) d = none ∧
    (∀ f rest, f.date = d ++ "T00:00:00" → f.priceType ≠ "price" →
      check_route_price (.ok (f :: rest)) d = none) := by
  refine ⟨rfl, rfl, scanFlights_no_match _ flights hmiss, ?_⟩
  intro f rest hdate hpt
  unfold check_route_price scanFlights
  rw [if_pos hdate, if_neg hpt]

/-- C5 counterexample: a transport failure, a not-found calendar and a
matching-but-unavailable calendar all return the identical value, so the
claimed three-way distinguishable error taxonomy does not exist in the
return value. -/
theorem claim_C5_counterexample :
    check_route_price .transport "2025-06-01" = check_route_price (.ok []) "2025-06-01" ∧
    check_route_price (.httpError 500) "2025-06-01" =
      check_route_price (.ok [⟨"2025-06-01T00:00:00", "soldOut", none, none⟩]) "2025-06-01" :=
  ⟨rfl, rfl⟩

/-- C5 witness: the four failure kinds at concrete inputs all evaluate to
`none`. -/
theorem claim_C5_witness :
    check_route_price .transport "2025-06-01" = none ∧
    check_route_price (.httpError 503) "2025-06-01" = none ∧
    check_route_price (.ok [⟨"2025-06-09T00:00:00", "checkPrice", none, none⟩])
      "2025-06-01" = none ∧
    check_route_price (.ok [⟨"2025-06-01T00:00:00", "soldOut", none, none⟩])
      "2025-06-01" = none := by
  obtain ⟨h1, h2, h3, h4⟩ := claim_C5_all_failures_none "2025-06-01" 503
    [⟨"2025-06-09T00:00:00", "checkPrice", none, none⟩] (by decide)
  exact ⟨h1, h2, h3, h4 ⟨"2025-06-01T00:00:00", "soldOut", none, none⟩ [] rfl (by decide)⟩

/-- C6: version resolution failure (network error or non-2xx, both landing
in the `except` branch; or pattern not found in the body) leaves the known
version unchanged and raises nothing — the embedded resolver is total;
successful extraction replaces the version; and the pass's fetch URLs use
exactly the resolver's output. -/
theorem claim_C6_version_fallback :
    (∀ current, get_current_api_version current .failure = current) ∧
    (∀ current body, findVersion body.toList = none →
      get_current_api_version current (.success body) = current) ∧
    (∀ current body vnew, findVersion body.toList = some vnew →
      get_current_api_version current (.success body) = vnew) ∧
    (∀ airports current vresp routesFile file,
      (main_pass airports current vresp routesFile file).versionUsed =
        get_current_api_version current vresp) := by
  refine ⟨fun _ => rfl, ?_, ?_, ?_⟩
  · intro current body h
    show (match findVersion body.toList with | some v => v | none => current) = current
    rw [h]
  · intro current body vnew h
    show (match findVersion body.toList with | some v => v | none => current) = vnew
    rw [h]
  · intro airports current vresp routesFile file
    cases routesFile <;> rfl

/-- C6 witness: a body without the pattern leaves 27.36.0 in place; a body
carrying the build-number line updates to the extracted 27.40.1. -/
theorem claim_C6_witness :
    findVersion "maintenance page".toList = none ∧
    get_current_api_version "27.36.0" (.success "maintenance page") = "27.36.0" ∧
    findVersion "SSR https://be.wizzair.com/27.40.1".toList = some "27.40.1" ∧
    get_current_api_version "27.36.0" (.success "SSR https://be.wizzair.com/27.40.1") =
      "27.40.1" :=
  ⟨by decide, claim_C6_version_fallback.2.1 "27.36.0" "maintenance page" (by decide),
    by decide, claim_C6_version_fallback.2.2.1 "27.36.0"
      "SSR https://be.wizzair.com/27.40.1" "27.40.1" (by decide)⟩

/-- C7: a missing `routes.json` aborts only the current pass — no route is
fetched, the price store is neither read nor written, no message is sent,
the process sleeps the full interval, and the loop then runs the next pass
normally with the file state unchanged (only `API_VERSION`, refreshed
before the existence check, carries over). -/
theorem claim_C7_missing_routes (airports : List (String × String)) (api_version : String)
    (file : FileState) (vresp : VersionResp) (rest : List PassEnv) :
    (main_pass airports api_version vresp .missing file).routesChecked = 0 ∧
    (main_pass airports api_version vresp .missing file).storeRead = false ∧
    (main_pass airports api_version vresp .missing file).messages = [] ∧
    (main_pass airports api_version vresp .missing file).savedStore = none ∧
    (main_pass airports api_version vresp .missing file).sleptSeconds =
      CHECK_INTERVAL_MINUTES * 60 ∧
    main_loop airports api_version file (⟨vresp, .missing⟩ :: rest) =
      main_pass airports api_version vresp .missing file ::
        main_loop airports (get_current_api_version api_version vresp) file rest :=
  ⟨rfl, rfl, rfl, rfl, rfl, rfl⟩

theorem arrowFor_some (v p : ℚ) :
    arrowFor (some v) p = if v ≠ 0 ∧ p > v then .up else .down := by
  show (if v = 0 then Direction.down else if p > v then .up else .down) =
    if v ≠ 0 ∧ p > v then .up else .down
  by_cases h0 : v = 0
  · rw [if_pos h0, if_neg fun hc => hc.1 h0]
  · rw [if_neg h0]
    by_cases hp : p > v
    · rw [if_pos hp, if_pos ⟨h0, hp⟩]
    · rw [if_neg hp, if_neg fun hc => hp hc.2]

/-- C1 (amended): for a successfully fetched route — no prior entry sends
a change message (first sighting, always reported); a prior entry with
amount within 0.01 sends nothing; a prior entry with amount differing by
more than 0.01 sends a change message whose direction is up exactly when
the old amount is nonzero AND the new exceeds the old, down otherwise
(Python truthiness of the old amount; the claim's plain "up when new >
old" fails at old amount 0, see the counterexample). -/
theorem claim_C1_change_classification (airports : List (String × String))
    (prev cur : Store) (route : Route) (resp : FetchResp) (p : ℚ) (c : String)
    (hfetch : check_route_price resp route.depart_date = some (p, c)) :
    (prev (get_route_id route) = none →
      (processRoute airports prev cur route resp).2 =
        some (change_message airports route p c none)) ∧
    (∀ o, prev (get_route_id route) = some o → |p - o.price| ≤ 1/100 →
      (processRoute airports prev cur route resp).2 = none) ∧
    (∀ o, prev (get_route_id route) = some o → |p - o.price| > 1/100 →
      (processRoute airports prev cur route resp).2 =
        some (.priceChange (if o.price ≠ 0 ∧ p > o.price then .up else .down)
          (get_city_name_with_code airports route.origin)
          (get_city_name_with_code airports route.destination)
          route.depart_date (format_price p c)
          (if o.price = 0 then "–" else format_price o.price o.currency))) := by
  refine ⟨?_, ?_, ?_⟩
  · intro hnone
    unfold processRoute
    rw [hfetch, hnone]
  · intro o hsome hle
    unfold processRoute
    rw [hfetch, hsome]
    simp only []
    rw [if_neg (not_lt.mpr hle)]
  · intro o hsome hgt
    unfold processRoute
    rw [hfetch, hsome]
    simp only []
    rw [if_pos hgt]
    unfold change_message
    simp only [Option.map_some', arrowFor_some]

/-- C1 counterexample: prior amount 0, new amount 50 (an increase well past
the epsilon): the claim requires outcome Increased (up arrow), but the code
tests the old amount for truthiness and emits the down arrow, with the
placeholder shown for the old price. -/
theorem claim_C1_counterexample :
    (50:ℚ) > 0 ∧
    (processRoute []
        (fun rid => if rid = "AAA-BBB-2025-06-01" then some ⟨0, "EUR"⟩ else none)
        (fun rid => if rid = "AAA-BBB-2025-06-01" then some ⟨0, "EUR"⟩ else none)
        ⟨"AAA", "BBB", "2025-06-01", 1⟩
        (.ok [⟨"2025-06-01T00:00:00", "price", some 50, some "EUR"⟩])).2 =
      some (.priceChange .down "AAA" "BBB" "2025-06-01" (format_price 50 "EUR") "–") ∧
    (processRoute []
        (fun rid => if rid = "AAA-BBB-2025-06-01" then some ⟨0, "EUR"⟩ else none)
        (fun rid => if rid = "AAA-BBB-2025-06-01" then some ⟨0, "EUR"⟩ else none)
        ⟨"AAA", "BBB", "2025-06-01", 1⟩
        (.ok [⟨"2025-06-01T00:00:00", "price", some 50, some "EUR"⟩])).2 ≠
      some (.priceChange .up "AAA" "BBB" "2025-06-01" (format_price 50 "EUR") "–") := by
  refine ⟨by decide, by decide, by decide⟩

/-- C1 witness: unchanged branch — prior 100 EUR, fetched 100 EUR, the
difference 0 is within the epsilon and no message is produced. -/
theorem claim_C1_witness :
    |(100:ℚ) - (100:ℚ)| ≤ 1/100 ∧
    (processRoute []
        (fun rid => if rid = "VIE-ROM-2025-07-01" then some ⟨100, "EUR"⟩ else none)
        (fun rid => if rid = "VIE-ROM-2025-07-01" then some ⟨100, "EUR"⟩ else none)
        ⟨"VIE", "ROM", "2025-07-01", 1⟩
        (.ok [⟨"2025-07-01T00:00:00", "price", some 100, some "EUR"⟩])).2 = none :=
  ⟨by decide,
    (claim_C1_change_classification []
      (fun rid => if rid = "VIE-ROM-2025-07-01" then some ⟨100, "EUR"⟩ else none)
      (fun rid => if rid = "VIE-ROM-2025-07-01" then some ⟨100, "EUR"⟩ else none)
      ⟨"VIE", "ROM", "2025-07-01", 1⟩
      (.ok [⟨"2025-07-01T00:00:00", "price", some 100, some "EUR"⟩])
      100 "EUR" (by decide)).2.1 ⟨100, "EUR"⟩ (by decide) (by decide)⟩

/-- C9: a stored prior with amount exactly 0 and a new amount more than
0.01 away (here, larger — the price increased) still produces the DOWN
arrow and shows the placeholder in place of the old price, because line
239 and line 244 test the old amount for truthiness, not for presence. -/
theorem claim_C9_zero_prior_truthiness (airports : List (String × String))
    (prev cur : Store) (route : Route) (resp : FetchResp) (p : ℚ) (c : String) (o : Obs)
    (hfetch : check_route_price resp route.depart_date = some (p, c))
    (hold : prev (get_route_id route) = some o) (hzero : o.price = 0)
    (hdiff : |p - o.price| > 1/100) (hinc : p > o.price) :
    (processRoute airports prev cur route resp).2 =
      some (.priceChange .down
        (get_city_name_with_code airports route.origin)
        (get_city_name_with_code airports route.destination)
        route.depart_date (format_price p c) "–") := by
  rw [(claim_C1_change_classification airports prev cur route resp p c hfetch).2.2
    o hold hdiff, if_neg fun hc => hc.1 hzero, if_pos hzero]

/-- C2: the dictionary committed by the single end-of-pass save equals the
prior store overlaid with exactly this pass's successes — a route whose
only fetch failed keeps its prior entry, a route whose fetch succeeded is
overwritten with the new observation, and untouched route ids keep their
prior entries (routes are assumed pairwise distinct, matching the spec's
one fetch per route per pass). -/
theorem claim_C2_commit_frame (airports : List (String × String)) (api_version : String)
    (vresp : VersionResp) (prev : Store) (checks : List (Route × FetchResp))
    (hnd : (checks.map fun x => get_route_id x.1).Nodup) :
    ((main_pass airports api_version vresp (.present checks) (.ok prev)).savedStore).isSome
      = true ∧
    ∀ final,
      (main_pass airports api_version vresp (.present checks) (.ok prev)).savedStore =
        some final →
      (∀ route resp, (route, resp) ∈ checks →
        check_route_price resp route.depart_date = none →
        final (get_route_id route) = prev (get_route_id route)) ∧
      (∀ route resp p c, (route, resp) ∈ checks →
        check_route_price resp route.depart_date = some (p, c) →
        final (get_route_id route) = some ⟨p, c⟩) ∧
      (∀ rid, (∀ x ∈ checks, get_route_id x.1 ≠ rid) → final rid = prev rid) := by
  refine ⟨rfl, ?_⟩
  intro final hfinal
  have hfe : some ((runRoutes airports prev prev checks).1) = some final := hfinal
  obtain rfl := Option.some_inj.mp hfe
  refine ⟨?_, ?_, ?_⟩
  · intro route resp hmem hfail
    apply runRoutes_lookup_no_succ
    intro r2 resp2 p c hmem2 hs2 hid
    have heq : (r2, resp2) = (route, resp) :=
      List.inj_on_of_nodup_map hnd hmem2 hmem hid
    obtain ⟨he1, he2⟩ := Prod.mk.injEq .. ▸ heq
    subst he1
    subst he2
    exact Option.noConfusion (hfail ▸ hs2)
  · intro route resp p c hmem hs
    exact runRoutes_lookup_succ airports prev checks prev route resp p c hnd hmem hs
  · intro rid hno
    apply runRoutes_lookup_no_succ
    intro r2 resp2 p c hmem2 _
    exact hno (r2, resp2) hmem2

/-- C2 witness: one successful route (VIE-BCN, fetched 115.5 EUR) and one
failed route (OTP-MAD, transport error) against a prior store holding only
OTP-MAD at 80 EUR. -/
theorem claim_C2_witness :
    (main_pass [] "27.36.0" .failure
      (.present [(⟨"VIE", "BCN", "2025-09-01", 1⟩,
          .ok [⟨"2025-09-01T00:00:00", "price", some (231/2), some "EUR"⟩]),
        (⟨"OTP", "MAD", "2025-09-02", 1⟩, .transport)])
      (.ok (fun rid =>
        if rid = "OTP-MAD-2025-09-02" then some ⟨80, "EUR"⟩ else none))).savedStore.isSome
      = true ∧
    (runRoutes [] (fun rid => if rid = "OTP-MAD-2025-09-02" then some ⟨80, "EUR"⟩ else none)
      (fun rid => if rid = "OTP-MAD-2025-09-02" then some ⟨80, "EUR"⟩ else none)
      [(⟨"VIE", "BCN", "2025-09-01", 1⟩,
          .ok [⟨"2025-09-01T00:00:00", "price", some (231/2), some "EUR"⟩]),
        (⟨"OTP", "MAD", "2025-09-02", 1⟩, .transport)]).1
      (get_route_id ⟨"OTP", "MAD", "2025-09-02", 1⟩) =
      some ⟨80, "EUR"⟩ ∧
    (runRoutes [] (fun rid => if rid = "OTP-MAD-2025-09-02" then some ⟨80, "EUR"⟩ else none)
      (fun rid => if rid = "OTP-MAD-2025-09-02" then some ⟨80, "EUR"⟩ else none)
      [(⟨"VIE", "BCN", "2025-09-01", 1⟩,
          .ok [⟨"2025-09-01T00:00:00", "price", some (231/2), some "EUR"⟩]),
        (⟨"OTP", "MAD", "2025-09-02", 1⟩, .transport)]).1
      (get_route_id ⟨"VIE", "BCN", "2025-09-01", 1⟩) =
      some ⟨231/2, "EUR"⟩ := by
  obtain ⟨h1, h2⟩ := claim_C2_commit_frame [] "27.36.0" .failure
    (fun rid => if rid = "OTP-MAD-2025-09-02" then some ⟨80, "EUR"⟩ else none)
    [(⟨"VIE", "BCN", "2025-09-01", 1⟩,
        .ok [⟨"2025-09-01T00:00:00", "price", some (231/2), some "EUR"⟩]),
      (⟨"OTP", "MAD", "2025-09-02", 1⟩, .transport)]
    (by decide)
  obtain ⟨hfail, hsucc, _⟩ := h2 _ rfl
  exact ⟨h1, hfail ⟨"OTP", "MAD", "2025-09-02", 1⟩ .transport (by decide) rfl,
    hsucc ⟨"VIE", "BCN", "2025-09-01", 1⟩
      (.ok [⟨"2025-09-01T00:00:00", "price", some (231/2), some "EUR"⟩])
      (231/2) "EUR" (by decide) (by decide)⟩

/-- C10: when `prev_prices.json` exists but cannot be parsed the pass
silently runs against an empty prior store — every successful fetch
produces the first-sighting change message (prior `None`, placeholder old
price), and the committed dictionary holds only this pass's successes:
any route id without a success this pass maps to nothing, previously
persisted entries included. -/
theorem claim_C10_corrupt_store (airports : List (String × String)) (api_version : String)
    (vresp : VersionResp) (checks : List (Route × FetchResp)) :
    (∀ route resp p c, (route, resp) ∈ checks →
      check_route_price resp route.depart_date = some (p, c) →
      change_message airports route p c none ∈
        (main_pass airports api_version vresp (.present checks) .corrupt).messages) ∧
    ∀ final,
      (main_pass airports api_version vresp (.present checks) .corrupt).savedStore =
        some final →
      ∀ rid, (∀ route resp p c, (route, resp) ∈ checks →
          check_route_price resp route.depart_date = some (p, c) →
          get_route_id route ≠ rid) →
        final rid = none := by
  constructor
  · intro route resp p c hmem hs
    exact runRoutes_noprior_msg airports checks emptyStore route resp p c hmem hs
  · intro final hfinal rid hno
    have hfe : some ((runRoutes airports emptyStore emptyStore checks).1) = some final :=
      hfinal
    obtain rfl := Option.some_inj.mp hfe
    rw [runRoutes_lookup_no_succ airports emptyStore checks emptyStore rid hno]
    rfl

/-- C10 witness: with a corrupt state file, a successful fetch of 80 RON
for BUD-ROM is reported as a first sighting, and a route id that was
previously persisted but had no success this pass is absent from the
committed dictionary. -/
theorem claim_C10_witness :
    change_message [] ⟨"BUD", "ROM", "2025-08-01", 1⟩ 80 "RON" none ∈
      (main_pass [] "27.36.0" .failure
        (.present [(⟨"BUD", "ROM", "2025-08-01", 1⟩,
          .ok [⟨"2025-08-01T00:00:00", "price", some 80, some "RON"⟩])]) .corrupt).messages ∧
    (runRoutes [] emptyStore emptyStore
      [(⟨"BUD", "ROM", "2025-08-01", 1⟩,
        .ok [⟨"2025-08-01T00:00:00", "price", some 80, some "RON"⟩])]).1
      "OTP-MAD-2025-09-02" = none := by
  obtain ⟨h1, h2⟩ := claim_C10_corrupt_store [] "27.36.0" .failure
    [(⟨"BUD", "ROM", "2025-08-01", 1⟩,
      .ok [⟨"2025-08-01T00:00:00", "price", some 80, some "RON"⟩])]
  refine ⟨h1 ⟨"BUD", "ROM", "2025-08-01", 1⟩
      (.ok [⟨"2025-08-01T00:00:00", "price", some 80, some "RON"⟩])
      80 "RON" (by decide) (by decide), ?_⟩
  apply h2 _ rfl
  intro route resp p c hmem hs
  have heq := List.mem_singleton.mp hmem
  obtain ⟨he1, he2⟩ := Prod.mk.injEq .. ▸ heq
  subst he1
  decide

/-- C9 witness: stored 0 EUR, fetched 50 EUR — an increase reported with
the down arrow and the placeholder for the old price. -/
theorem claim_C9_witness :
    (processRoute []
        (fun rid => if rid = "CCC-DDD-2025-06-01" then some ⟨0, "EUR"⟩ else none)
        (fun rid => if rid = "CCC-DDD-2025-06-01" then some ⟨0, "EUR"⟩ else none)
        ⟨"CCC", "DDD", "2025-06-01", 1⟩
        (.ok [⟨"2025-06-01T00:00:00", "price", some 50, some "EUR"⟩])).2 =
      some (.priceChange .down "CCC" "DDD" "2025-06-01" (format_price 50 "EUR") "–") :=
  claim_C9_zero_prior_truthiness []
    (fun rid => if rid = "CCC-DDD-2025-06-01" then some ⟨0, "EUR"⟩ else none)
    (fun rid => if rid = "CCC-DDD-2025-06-01" then some ⟨0, "EUR"⟩ else none)
    ⟨"CCC", "DDD", "2025-06-01", 1⟩
    (.ok [⟨"2025-06-01T00:00:00", "price", some 50, some "EUR"⟩])
    50 "EUR" ⟨0, "EUR"⟩ (by decide) (by decide) rfl (by decide) (by decide)
